import Mathlib

/-!
Shallow embedding of the audio-recorder-manager repository
(`devices.py` and `recorder.py`) and proofs about the claims of its
specification.

Conventions of the embedding:
* Python dictionaries returned by the PyAudio layer become structures;
  the `hostApi` entry of a PyAudio device-info dictionary is an
  *integer* host-API index, and is embedded as such.
* Python exceptions become `Except` / explicit error inductives whose
  constructors mirror the exception classes of the source.
* The platform audio subsystem (PyAudio) is modelled as a structure of
  query functions returning `Except Unit` values; `.error ()` stands for
  the query raising an exception.
* Wall-clock time in the capture loop is modelled in integer
  milliseconds; the fixed `time.sleep(0.05)` between reads is 50 ms.
* Raw audio chunks are byte lists (`List Nat`, values 0..255), decoded
  to signed 16-bit samples exactly as `struct.unpack` with format
  `<{n}h` does.
-/

/-- Lower-case a string character by character (structural version of
`str.lower()` used so that concrete evaluation reduces in the kernel). -/
def lowerStr (s : String) : String :=
  ⟨s.data.map Char.toLower⟩

/-- `containsSub needle hay` is Python's `needle in hay` on character
lists: `needle` occurs contiguously inside `hay`. -/
def containsSub (needle : List Char) : List Char → Bool
  | [] => needle.isEmpty
  | c :: rest => needle.isPrefixOf (c :: rest) || containsSub needle rest

/-- Python `needle in hay` for strings (substring containment). -/
def strIn (needle hay : String) : Bool :=
  containsSub needle.data hay.data

/-! ## devices.py -/

/-- `AudioDevice` dataclass of `devices.py`. -/
structure AudioDevice where
  index : Nat
  name : String
  max_input_channels : Nat
  max_output_channels : Nat
  default_sample_rate : Nat
  host_api : String
  is_loopback : Bool := false
  is_default : Bool := false
deriving DecidableEq, Repr

/-- The exception classes of `devices.py`: `AudioDeviceError` and its
subclass `WASAPINotAvailableError`. -/
inductive DeviceException where
  | audioDeviceError (msg : String)
  | wasapiNotAvailableError (msg : String)
deriving DecidableEq, Repr

/-- A PyAudio device-info dictionary as consumed by `devices.py`.  The
`hostApi` entry is the integer index of the host API (this is what
PyAudio's `get_device_info_by_index` returns). -/
structure RawDeviceInfo where
  name : String
  maxInputChannels : Nat
  maxOutputChannels : Nat
  defaultSampleRate : Nat
  hostApi : Nat
deriving DecidableEq, Repr

/-- The PyAudio subsystem surface used by `DeviceManager`.  Each query
returns `Except Unit`; `.error ()` models the call raising. -/
structure AudioSubsystem where
  deviceCount : Except Unit Nat
  deviceInfo : Nat → Except Unit RawDeviceInfo
  hostApiName : Nat → Except Unit String
  defaultInputIndex : Except Unit Nat
  defaultOutputIndex : Except Unit Nat

/-- The `loopback_indicators` list of `DeviceManager._is_loopback_device`. -/
def loopback_indicators : List String :=
  ["loopback", "stereo mix", "what u hear", "wave out mix", "speakers (", "headphones ("]

/-- `DeviceManager._is_loopback_device`.  The name-substring test is the
first branch.  The second branch evaluates
`'wasapi' in device_info.get('hostApi', 0)`; since the `hostApi` entry
is an integer, the membership test raises `TypeError` whenever it is
reached, which the embedding returns as `.error`. -/
def is_loopback_device (info : RawDeviceInfo) : Except String Bool :=
  let device_name := lowerStr info.name
  if loopback_indicators.any (fun ind => strIn ind device_name) then
    .ok true
  else if info.maxInputChannels > 0 && info.maxOutputChannels == 0 then
    .error "TypeError: argument of type int is not iterable"
  else
    .ok false

/-- `DeviceManager._is_default_device`: true when the device index equals
the default input or default output index; any exception inside the
`try` block yields `False`. -/
def is_default_device (p : AudioSubsystem) (device_index : Nat) : Bool :=
  match p.defaultInputIndex with
  | .error _ => false
  | .ok di =>
    if di == device_index then true
    else
      match p.defaultOutputIndex with
      | .error _ => false
      | .ok dout => dout == device_index

/-- The per-endpoint body of `DeviceManager.list_all_devices`: fetch the
info dictionary, resolve the host-API name, classify loopback (which may
raise, see `is_loopback_device`) and default status, and build the
`AudioDevice` record.  Any failure makes the whole endpoint fail. -/
def build_device (p : AudioSubsystem) (i : Nat) : Except Unit AudioDevice :=
  match p.deviceInfo i with
  | .error u => .error u
  | .ok info =>
    match p.hostApiName info.hostApi with
    | .error u => .error u
    | .ok api =>
      match is_loopback_device info with
      | .error _ => .error ()
      | .ok lb =>
        .ok { index := i
              name := info.name
              max_input_channels := info.maxInputChannels
              max_output_channels := info.maxOutputChannels
              default_sample_rate := info.defaultSampleRate
              host_api := api
              is_loopback := lb
              is_default := is_default_device p i }

/-- The enumeration pass of `list_all_devices`: a failing
`get_device_count` aborts with `AudioDeviceError`; a failing endpoint is
skipped (`except ...: continue`). -/
def enumerate_devices (p : AudioSubsystem) : Except DeviceException (List AudioDevice) :=
  match p.deviceCount with
  | .error _ => .error (.audioDeviceError "Failed to list devices")
  | .ok n => .ok ((List.range n).filterMap (fun i => (build_device p i).toOption))

/-- `DeviceManager.list_all_devices`.  The cache (`_devices_cache`) is
`Option (List AudioDevice)`; the code returns the cache whenever it `is
not None` and no refresh was requested.  Returns the device list
together with the cache state after the call. -/
def list_all_devices (p : AudioSubsystem) (cache : Option (List AudioDevice))
    (refresh_cache : Bool) :
    Except DeviceException (List AudioDevice × Option (List AudioDevice)) :=
  match cache, refresh_cache with
  | some c, false => .ok (c, some c)
  | _, _ =>
    match enumerate_devices p with
    | .ok devs => .ok (devs, some devs)
    | .error e => .error e

/-- The message carried by a `DeviceException`. -/
def device_exception_message : DeviceException → String
  | .audioDeviceError m => m
  | .wasapiNotAvailableError m => m

/-- The pure selection core of `DeviceManager.get_default_speakers`,
operating on an already-listed device sequence. -/
def get_default_speakers (devices : List AudioDevice) : Option AudioDevice :=
  let loopback_devices := devices.filter (fun d => d.is_loopback)
  if loopback_devices.isEmpty then
    let wasapi_output_devices := devices.filter
      (fun d => lowerStr d.host_api == "windows wasapi" && d.max_output_channels > 0)
    if wasapi_output_devices.isEmpty then
      none
    else
      match wasapi_output_devices.find? (fun d => d.is_default) with
      | some d => some d
      | none => wasapi_output_devices.head?
  else
    match loopback_devices.find? (fun d => d.is_default) with
    | some d => some d
    | none => loopback_devices.head?

/-- `get_default_speakers` including its exception wrapper: any failure
of the catalog access is re-raised as `AudioDeviceError`; a pure
"not found" is returned as `.ok none`. -/
def get_default_speakers_from
    (listResult : Except DeviceException (List AudioDevice)) :
    Except DeviceException (Option AudioDevice) :=
  match listResult with
  | .error e =>
    .error (.audioDeviceError
      ("Failed to detect default device: " ++ device_exception_message e))
  | .ok devices => .ok (get_default_speakers devices)

/-- Selection policy of `get_default_speakers` transcribed from the
specification text: (a) prefer a loopback device flagged default, else
the first loopback in enumeration order; (b) else, among devices on the
WASAPI host API with output channels, the default one, else the first;
(c) else absent. -/
def spec_default_speakers (devices : List AudioDevice) : Option AudioDevice :=
  if devices.any (fun d => d.is_loopback) then
    match devices.find? (fun d => d.is_loopback && d.is_default) with
    | some d => some d
    | none => devices.find? (fun d => d.is_loopback)
  else
    match devices.find? (fun d =>
        (lowerStr d.host_api == "windows wasapi" && d.max_output_channels > 0) && d.is_default) with
    | some d => some d
    | none =>
      devices.find? (fun d =>
        lowerStr d.host_api == "windows wasapi" && d.max_output_channels > 0)

/-- The preference score of `get_recording_capable_devices` (the code
computes `-score` as ascending sort key, which is descending by this
score). -/
def sort_score (d : AudioDevice) : Nat :=
  (if lowerStr d.host_api == "windows wasapi" then 30 else 0) +
  (if d.is_loopback then 20 else 0) +
  (if d.is_default then 10 else 0)

/-- `DeviceManager.get_recording_capable_devices`: filter to devices
with input channels, then stable-sort descending by `sort_score`
(Python's `sorted` is a stable sort; `List.mergeSort` is the stable sort
of the Lean library). -/
def get_recording_capable_devices (devices : List AudioDevice) : List AudioDevice :=
  let recording_devices := devices.filter (fun d => d.max_input_channels > 0)
  recording_devices.mergeSort (fun a b => sort_score b ≤ sort_score a)

/-! ## recorder.py -/

/-- The sample formats used by the recorder; the source always records
`pyaudio.paInt16`. -/
inductive PaFormat where
  | paInt16
deriving DecidableEq, Repr

/-- `PyAudio.get_sample_size`: bytes per sample of a format. -/
def get_sample_size : PaFormat → Nat
  | .paInt16 => 2

/-- `RecordingConfig` dataclass of `recorder.py` (the configured device
is omitted: no claim depends on which device is stored). -/
structure RecordingConfig where
  sample_rate : Nat := 48000
  channels : Nat := 2
  chunk_size : Nat := 4096
  fmt : PaFormat := .paInt16
  max_duration : Option Nat := none
  audio_format : String := "wav"
deriving DecidableEq, Repr

/-- The exception classes of `recorder.py`: `AudioRecorderError` and its
subclass `RecordingInProgressError`.  These are the only recorder
exception types in the source. -/
inductive RecorderException where
  | audioRecorderError (msg : String)
  | recordingInProgressError (msg : String)
deriving DecidableEq, Repr

/-- The Python class name of a recorder exception. -/
def exception_class : RecorderException → String
  | .audioRecorderError _ => "AudioRecorderError"
  | .recordingInProgressError _ => "RecordingInProgressError"

/-- The message of a recorder exception. -/
def exception_message : RecorderException → String
  | .audioRecorderError m => m
  | .recordingInProgressError m => m

/-- The fields of `RecordingStats` that the claims depend on:
`samples_recorded` and whether `end_time` has been set. -/
structure RecStats where
  samplesRecorded : Nat
  endTimeSet : Bool
deriving DecidableEq, Repr

/-- The mutable state of an `AudioRecorder` instance. -/
structure RecorderState where
  hasConfig : Bool
  recording : Bool
  frames : List (List Nat)
  stats : Option RecStats
  framesCaptured : Nat
  hasAudioDetected : Bool
deriving DecidableEq, Repr

/-- `AudioRecorder.__init__` (with or without a configuration). -/
def recorder_init (hasConfig : Bool) : RecorderState :=
  { hasConfig := hasConfig
    recording := false
    frames := []
    stats := none
    framesCaptured := 0
    hasAudioDetected := false }

/-- `AudioRecorder.start_recording`.  External outcomes are passed in:
`autoConfigOk` is the result of `set_device_auto` (consulted only when
no configuration exists) and `streamOpenOk` tells whether
`self._audio.open` succeeds.  Returns the post-state and the raised
exception, if any (mirroring that a Python `raise` leaves the object in
its state at the raise point; the failure path runs
`_cleanup_recording`). -/
def start_recording (s : RecorderState) (autoConfigOk streamOpenOk : Bool) :
    RecorderState × Option RecorderException :=
  if s.recording then
    (s, some (.recordingInProgressError "Recording is already in progress"))
  else if !s.hasConfig && !autoConfigOk then
    (s, some (.audioRecorderError "Could not configure audio device"))
  else
    let s1 : RecorderState :=
      { s with hasConfig := true
               stats := some { samplesRecorded := 0, endTimeSet := false }
               frames := [] }
    if streamOpenOk then
      ({ s1 with recording := true }, none)
    else
      ({ s1 with recording := false, frames := [], stats := none },
       some (.audioRecorderError "Failed to start recording"))

/-- Decode a byte string as `struct.unpack` with little-endian signed
16-bit format does (the caller guarantees an even byte count). -/
def unpackInt16le : List Nat → List Int
  | b0 :: b1 :: rest =>
    let v : Nat := b0 + 256 * b1
    (if v ≥ 32768 then (v : Int) - 65536 else (v : Int)) :: unpackInt16le rest
  | _ => []

/-- Whether `_calculate_audio_level(data) > threshold`:
`sqrt(Σ s² / n) > T  ↔  Σ s² > T² · n` for `T ≥ 0`, `n > 0`, stated in
exact integer arithmetic.  `struct.unpack` raises on an odd byte count,
which `_calculate_audio_level` turns into level `0.0`; an empty sample
list is also level `0.0`. -/
def chunk_level_exceeds (data : List Nat) (threshold : Nat) : Bool :=
  if data.length % 2 != 0 then false
  else
    let samples := unpackInt16le data
    if samples.length > 0 then
      (threshold * threshold * samples.length : Int) <
        (samples.map (fun s => s * s)).sum
    else false

/-- The RMS threshold `self._audio_threshold = 100`. -/
def audio_threshold : Nat := 100

/-- One successful `stream.read` iteration of
`AudioRecorder._recording_worker`: append the chunk, bump the frame
counter and `samples_recorded`, and run the (latched) audio-level
detection. -/
def worker_read_chunk (s : RecorderState) (chunkSize : Nat) (data : List Nat) :
    RecorderState :=
  if data.length > 0 then
    { s with frames := s.frames ++ [data]
             framesCaptured := s.framesCaptured + 1
             stats := s.stats.map (fun st =>
               { st with samplesRecorded := st.samplesRecorded + chunkSize })
             hasAudioDetected :=
               if !s.hasAudioDetected then
                 (if chunk_level_exceeds data audio_threshold then true
                  else s.hasAudioDetected)
               else s.hasAudioDetected }
  else s

/-- Fold of `worker_read_chunk` over a sequence of captured chunks. -/
def process_chunks (s : RecorderState) (chunkSize : Nat) (chunks : List (List Nat)) :
    RecorderState :=
  chunks.foldl (fun t d => worker_read_chunk t chunkSize d) s

/-- `AudioRecorder.get_frames_captured`. -/
def get_frames_captured (s : RecorderState) : Nat :=
  s.framesCaptured

/-- `AudioRecorder.has_audio_detected`. -/
def has_audio_detected (s : RecorderState) : Bool :=
  s.hasAudioDetected

/-- `AudioRecorder.stop_recording`.  The outcome of `_save_as_wav` /
`_save_as_m4a` is passed in as `saveResult`.  Mirrors: the
`NothingToStop` guard (`not self._frames and not self._stats`), clearing
the recording flag, finalizing the end time, the internal
"No audio data to save" failure of `_save_recording` when the frame
buffer is empty, and the wrapping of every save failure in
`AudioRecorderError("Failed to save file: ...")`. -/
def stop_recording (s : RecorderState) (saveResult : Except RecorderException Unit) :
    RecorderState × Except RecorderException RecStats :=
  if s.frames.isEmpty && s.stats.isNone then
    (s, .error (.audioRecorderError "No recording to save"))
  else
    let s2 : RecorderState :=
      { s with recording := false
               stats := s.stats.map (fun st => { st with endTimeSet := true }) }
    if s2.frames.isEmpty then
      (s2, .error (.audioRecorderError "Failed to save file: No audio data to save"))
    else
      match saveResult with
      | .ok _ => (s2, .ok (s2.stats.getD { samplesRecorded := 0, endTimeSet := true }))
      | .error e =>
        (s2, .error (.audioRecorderError ("Failed to save file: " ++ exception_message e)))

/-! ### Encoder -/

/-- The header parameters written by `_save_as_wav` through the `wave`
module. -/
structure WavParams where
  nchannels : Nat
  sampwidth : Nat
  framerate : Nat
deriving DecidableEq, Repr

/-- A written WAV file: its parameters and its raw data bytes. -/
structure WavFile where
  params : WavParams
  data : List Nat
deriving DecidableEq, Repr

/-- `AudioRecorder._save_as_wav`: set channel count, sample width and
frame rate from the configuration and write `b''.join(self._frames)`. -/
def save_as_wav (cfg : RecordingConfig) (frames : List (List Nat)) : WavFile :=
  { params := { nchannels := cfg.channels
                sampwidth := get_sample_size cfg.fmt
                framerate := cfg.sample_rate }
    data := frames.flatten }

/-- The frame count a reader of the WAV file observes: data bytes
divided by the frame size (channels × sample width). -/
def wav_num_frames (w : WavFile) : Nat :=
  w.data.length / (w.params.nchannels * w.params.sampwidth)

/-- Outcome of the `pydub` `AudioSegment.export` call inside
`_save_as_m4a`. -/
inductive ExportOutcome where
  | success
  | importError (msg : String)
  | otherError (msg : String)
deriving DecidableEq, Repr

/-- The message of the `AudioRecorderError` raised by `_save_as_m4a`
when `pydub` is missing. -/
def pydub_missing_msg : String :=
  "pydub not available for M4A encoding. Install with: pip install pydub"

/-- `AudioRecorder._save_as_m4a`: a missing `pydub` backend raises
`AudioRecorderError` (there is no separate exception class for it);
`ImportError` from export (missing ffmpeg) and any other export failure
also raise `AudioRecorderError`, with different messages. -/
def save_as_m4a (pydubAvailable : Bool) (outcome : ExportOutcome)
    (_frames : List (List Nat)) : Except RecorderException Unit :=
  if !pydubAvailable then
    .error (.audioRecorderError pydub_missing_msg)
  else
    match outcome with
    | .success => .ok ()
    | .importError m =>
      .error (.audioRecorderError ("Failed to encode M4A. Check if ffmpeg is installed: " ++ m))
    | .otherError m =>
      .error (.audioRecorderError ("Failed to save M4A file: " ++ m))

/-! ### Capture-loop timing model (milliseconds) -/

/-- `time.sleep(0.05)` between reads, in milliseconds. -/
def sleep_ms : Nat := 50

/-- Timing skeleton of `_recording_worker` with a configured maximum
duration: each iteration first checks `elapsed ≥ max_duration` and
exits, otherwise performs one blocking buffer read (`readDur` ms)
followed by the fixed sleep.  Returns the elapsed time observed at loop
exit and the start times of all reads performed. -/
def capture_loop_trace (maxDuration readDur elapsed : Nat) : Nat × List Nat :=
  if maxDuration ≤ elapsed then
    (elapsed, [])
  else
    let r := capture_loop_trace maxDuration readDur (elapsed + readDur + sleep_ms)
    (r.1, elapsed :: r.2)
termination_by maxDuration - elapsed
decreasing_by simp [sleep_ms]; omega

/-! ### Concrete inputs used by witnesses and counterexamples -/

/-- A plain microphone endpoint: no loopback-indicator substring in the
name, input channels only. -/
def micInfo : RawDeviceInfo :=
  { name := "Microphone (USB Audio)"
    maxInputChannels := 2
    maxOutputChannels := 0
    defaultSampleRate := 44100
    hostApi := 0 }

/-- A loopback-named endpoint (matches the `speakers (` indicator). -/
def speakersInfo : RawDeviceInfo :=
  { name := "Speakers (Realtek Audio) [Loopback]"
    maxInputChannels := 2
    maxOutputChannels := 0
    defaultSampleRate := 48000
    hostApi := 1 }

/-- A USB endpoint with both input and output channels (its loopback
classification completes without raising). -/
def usbInfo : RawDeviceInfo :=
  { name := "USB Audio Device"
    maxInputChannels := 1
    maxOutputChannels := 1
    defaultSampleRate := 44100
    hostApi := 0 }

/-- A subsystem exposing only the plain microphone. -/
def micSubsystem : AudioSubsystem :=
  { deviceCount := .ok 1
    deviceInfo := fun i => if i == 0 then .ok micInfo else .error ()
    hostApiName := fun i => if i == 0 then .ok "MME" else .error ()
    defaultInputIndex := .error ()
    defaultOutputIndex := .error () }

/-- A subsystem exposing only the two-way USB endpoint. -/
def usbSubsystem : AudioSubsystem :=
  { deviceCount := .ok 1
    deviceInfo := fun i => if i == 0 then .ok usbInfo else .error ()
    hostApiName := fun i => if i == 0 then .ok "MME" else .error ()
    defaultInputIndex := .error ()
    defaultOutputIndex := .error () }

/-- The `AudioDevice` record the USB endpoint enumerates to. -/
def usbDevice : AudioDevice :=
  { index := 0
    name := "USB Audio Device"
    max_input_channels := 1
    max_output_channels := 1
    default_sample_rate := 44100
    host_api := "MME"
    is_loopback := false
    is_default := false }

/-- A subsystem exposing zero endpoints (enumeration succeeds with an
empty result, populating the cache with an empty list). -/
def emptySubsystem : AudioSubsystem :=
  { deviceCount := .ok 0
    deviceInfo := fun _ => .error ()
    hostApiName := fun _ => .error ()
    defaultInputIndex := .error ()
    defaultOutputIndex := .error () }

/-- A subsystem whose `get_device_count` itself raises. -/
def downSubsystem : AudioSubsystem :=
  { deviceCount := .error ()
    deviceInfo := fun _ => .error ()
    hostApiName := fun _ => .error ()
    defaultInputIndex := .error ()
    defaultOutputIndex := .error () }

/-- A loud chunk: two samples of value 10000 (little-endian int16). -/
def loudChunk : List Nat := [16, 39, 16, 39]

/-- Recorder state after `start_recording` on a configured instance. -/
def sRec1 : RecorderState :=
  (start_recording (recorder_init true) true true).1

/-- Recorder state after capturing two loud chunks. -/
def sRec2 : RecorderState :=
  process_chunks sRec1 4096 [loudChunk, loudChunk]

/-- Recorder state after a successful `stop_recording` (the session has
been used: Saved). -/
def sSaved : RecorderState :=
  (stop_recording sRec2 (.ok ())).1

/-! ## Helper lemmas -/

/-- `worker_read_chunk` updates the audio-detected flag exactly by
or-ing in the detection result of the new chunk. -/
theorem worker_read_chunk_hasAudio (s : RecorderState) (chunkSize : Nat)
    (data : List Nat) :
    (worker_read_chunk s chunkSize data).hasAudioDetected =
      (s.hasAudioDetected ||
        (decide (0 < data.length) && chunk_level_exceeds data audio_threshold)) := by
  unfold worker_read_chunk
  by_cases hl : 0 < data.length
  · by_cases ha : s.hasAudioDetected
    · simp [hl, ha]
    · by_cases he : chunk_level_exceeds data audio_threshold <;>
        simp [hl, ha, he]
  · simp [hl]

/-- Once the audio-detected flag is set, processing any further chunks
keeps it set. -/
theorem process_chunks_keeps_detected (chunkSize : Nat) :
    ∀ (chunks : List (List Nat)) (s : RecorderState),
      s.hasAudioDetected = true →
      (process_chunks s chunkSize chunks).hasAudioDetected = true := by
  intro chunks
  induction chunks with
  | nil => intro s hs; exact hs
  | cons d t ih =>
    intro s hs
    have hstep : (worker_read_chunk s chunkSize d).hasAudioDetected = true := by
      rw [worker_read_chunk_hasAudio, hs]; simp
    exact ih _ hstep

/-! ## Claim theorems -/

/-- C1: the loopback heuristic is NOT total on enumerated devices: for a
plain microphone (no indicator substring in the name, input channels
only), `_is_loopback_device` evaluates `'wasapi' in device_info.get('hostApi', 0)`
on an integer and raises `TypeError`, and `list_all_devices` then drops
the endpoint from the enumeration; the name-substring branch itself
behaves as specified. -/
theorem C1_loopback_classification_raises_and_drops :
    is_loopback_device micInfo =
      .error "TypeError: argument of type int is not iterable"
    ∧ list_all_devices micSubsystem none false = .ok ([], some [])
    ∧ is_loopback_device speakersInfo = .ok true
    ∧ is_loopback_device usbInfo = .ok false :=
  ⟨rfl, rfl, rfl, rfl⟩

/-- C2 counterexample: a session that completed a successful
`stop_recording` (reached the Saved outcome) accepts a second
`start_recording` without raising, so sessions are not single-use as
claimed. -/
theorem C2_reuse_counterexample :
    (stop_recording sRec2 (Except.ok ())).2 =
      Except.ok { samplesRecorded := 8192, endTimeSet := true }
    ∧ sSaved.recording = false
    ∧ (start_recording sSaved true true).2 = none :=
  ⟨rfl, rfl, rfl⟩

/-- C2 (amended): `start_recording` raises `RecordingInProgressError`
exactly when a recording is currently in progress (`_recording` is the
only guard); a session whose recording has stopped can be started
again. -/
theorem C2_start_guard_iff (s : RecorderState) (autoConfigOk streamOpenOk : Bool) :
    ((start_recording s autoConfigOk streamOpenOk).2 =
      some (RecorderException.recordingInProgressError "Recording is already in progress"))
    ↔ s.recording = true := by
  unfold start_recording
  by_cases h : s.recording
  · simp [h]
  · simp only [h, if_false, Bool.not_eq_true]
    by_cases hc : (!s.hasConfig && !autoConfigOk)
    · simp [hc, h]
    · by_cases ho : streamOpenOk <;> simp [hc, ho, h]

/-- C7: the audio-detected flag starts false, is updated by a captured
chunk exactly by or-ing in whether that chunk's RMS level exceeds the
threshold, is untouched by `stop_recording`, and once true remains true
over any further sequence of captured chunks. -/
theorem C7_audio_detect_latch (c : Bool) (s : RecorderState) (chunkSize : Nat)
    (data : List Nat) (saveResult : Except RecorderException Unit)
    (chunks : List (List Nat)) :
    has_audio_detected (recorder_init c) = false
    ∧ has_audio_detected (worker_read_chunk s chunkSize data) =
        (has_audio_detected s ||
          (decide (0 < data.length) && chunk_level_exceeds data audio_threshold))
    ∧ has_audio_detected (stop_recording s saveResult).1 = has_audio_detected s
    ∧ has_audio_detected
        (process_chunks { s with hasAudioDetected := true } chunkSize chunks) = true := by
  refine ⟨rfl, worker_read_chunk_hasAudio s chunkSize data, ?_, ?_⟩
  · unfold stop_recording
    by_cases h1 : (s.frames.isEmpty && s.stats.isNone)
    · simp [h1, has_audio_detected]
    · simp only [h1, if_false, Bool.false_eq_true]
      by_cases h2 : s.frames.isEmpty
      · simp [h2, has_audio_detected]
      · cases saveResult <;> simp [h2, has_audio_detected]
  · exact process_chunks_keeps_detected chunkSize chunks _ rfl

/-- C9 counterexample: the error raised by `_save_as_m4a` when the
`pydub` transcoding backend is missing has the same exception class
(`AudioRecorderError`) as a generic I/O save failure; there is no
distinct `CompressedEncodingUnavailableError` type. -/
theorem C9_same_exception_type_counterexample :
    save_as_m4a false ExportOutcome.success [loudChunk] =
      .error (.audioRecorderError pydub_missing_msg)
    ∧ save_as_m4a true (ExportOutcome.otherError "disk full") [loudChunk] =
      .error (.audioRecorderError "Failed to save M4A file: disk full")
    ∧ exception_class (.audioRecorderError pydub_missing_msg) =
      exception_class (.audioRecorderError "Failed to save M4A file: disk full") :=
  ⟨rfl, rfl, rfl⟩

/-- C9 (amended): a missing transcoding backend makes `_save_as_m4a`
fail with `AudioRecorderError` carrying a dedicated message; generic
save failures carry the same exception class, so the two cases are
distinguishable only by message, not by type. -/
theorem C9_m4a_backend_error (outcome : ExportOutcome) (frames : List (List Nat))
    (m : String) :
    save_as_m4a false outcome frames = .error (.audioRecorderError pydub_missing_msg)
    ∧ exception_class (.audioRecorderError pydub_missing_msg) = "AudioRecorderError"
    ∧ exception_class (.audioRecorderError ("Failed to save M4A file: " ++ m)) =
        "AudioRecorderError"
    ∧ (pydub_missing_msg == "Failed to save M4A file: disk full") = false :=
  ⟨rfl, rfl, rfl, rfl⟩

/-- C10: `start_recording` resets the statistics record and clears the
frame buffer but leaves the frames-captured counter and the
audio-detected flag untouched, on every path. -/
theorem C10_start_preserves_counters (s : RecorderState) (autoConfigOk streamOpenOk : Bool) :
    get_frames_captured (start_recording s autoConfigOk streamOpenOk).1 =
      get_frames_captured s
    ∧ has_audio_detected (start_recording s autoConfigOk streamOpenOk).1 =
        has_audio_detected s
    ∧ ((start_recording s autoConfigOk streamOpenOk).2 = none →
        (start_recording s autoConfigOk streamOpenOk).1.frames = []
        ∧ (start_recording s autoConfigOk streamOpenOk).1.stats =
            some { samplesRecorded := 0, endTimeSet := false }) := by
  unfold start_recording
  by_cases h : s.recording
  · simp [h, get_frames_captured, has_audio_detected]
  · simp only [h, if_false, Bool.false_eq_true]
    by_cases hc : (!s.hasConfig && !autoConfigOk)
    · simp [hc, get_frames_captured, has_audio_detected]
    · by_cases ho : streamOpenOk <;>
        simp [hc, ho, get_frames_captured, has_audio_detected]

/-- C10 witness: a recorder reused after a completed recording still
reports the two frames captured and the detected audio of the previous
recording, while its statistics and frame buffer were reset. -/
theorem C10_start_preserves_counters_witness :
    get_frames_captured sSaved = 2
    ∧ has_audio_detected sSaved = true
    ∧ get_frames_captured (start_recording sSaved true true).1 = 2
    ∧ has_audio_detected (start_recording sSaved true true).1 = true
    ∧ (start_recording sSaved true true).1.frames = []
    ∧ (start_recording sSaved true true).1.stats =
        some { samplesRecorded := 0, endTimeSet := false } := by
  obtain ⟨h1, h2, h3⟩ := C10_start_preserves_counters sSaved true true
  obtain ⟨hf, hs⟩ := h3 rfl
  exact ⟨rfl, rfl, h1.trans rfl, h2.trans rfl, hf, hs⟩

/-- Unfolding lemma: the capture loop exits at the duration check. -/
theorem capture_loop_trace_stop (maxDuration readDur elapsed : Nat)
    (h : maxDuration ≤ elapsed) :
    capture_loop_trace maxDuration readDur elapsed = (elapsed, []) := by
  rw [capture_loop_trace]
  simp [h]

/-- Unfolding lemma: below the bound the loop reads once and continues. -/
theorem capture_loop_trace_go (maxDuration readDur elapsed : Nat)
    (h : elapsed < maxDuration) :
    capture_loop_trace maxDuration readDur elapsed =
      ((capture_loop_trace maxDuration readDur (elapsed + readDur + sleep_ms)).1,
        elapsed :: (capture_loop_trace maxDuration readDur (elapsed + readDur + sleep_ms)).2) := by
  rw [capture_loop_trace]
  simp [Nat.not_le.mpr h]

/-- Bounds of the capture loop started below the duration limit: the
exit elapsed time is in `[maxDuration, maxDuration + readDur + sleep_ms)`,
every read begins at an elapsed time below `maxDuration`, and at most
one read ends at or beyond `maxDuration`. -/
theorem capture_loop_bounds (maxDuration readDur elapsed : Nat)
    (he : elapsed < maxDuration) :
    maxDuration ≤ (capture_loop_trace maxDuration readDur elapsed).1
    ∧ (capture_loop_trace maxDuration readDur elapsed).1 <
        maxDuration + readDur + sleep_ms
    ∧ (∀ t ∈ (capture_loop_trace maxDuration readDur elapsed).2, t < maxDuration)
    ∧ (capture_loop_trace maxDuration readDur elapsed).2.countP
        (fun t => decide (maxDuration ≤ t + readDur)) ≤ 1 := by
  rw [capture_loop_trace_go maxDuration readDur elapsed he]
  by_cases h2 : elapsed + readDur + sleep_ms < maxDuration
  · have ih := capture_loop_bounds maxDuration readDur (elapsed + readDur + sleep_ms) h2
    obtain ⟨ih1, ih2, ih3, ih4⟩ := ih
    refine ⟨ih1, ih2, ?_, ?_⟩
    · intro t ht
      rcases List.mem_cons.mp ht with h | h
      · omega
      · exact ih3 t h
    · rw [List.countP_cons]
      have hfalse : (decide (maxDuration ≤ elapsed + readDur)) = false := by
        simp only [decide_eq_false_iff_not]
        simp only [sleep_ms] at h2
        omega
      simp [hfalse, ih4]
  · have hstop := capture_loop_trace_stop maxDuration readDur
      (elapsed + readDur + sleep_ms) (Nat.not_lt.mp h2)
    rw [hstop]
    refine ⟨Nat.not_lt.mp h2, by omega, ?_, ?_⟩
    · intro t ht
      rcases List.mem_cons.mp ht with h | h
      · omega
      · simp at h
    · simp [List.countP_cons, List.countP_nil]
      split <;> omega
termination_by maxDuration - elapsed
decreasing_by simp [sleep_ms]; omega

set_option maxRecDepth 8000 in
/-- C6 counterexample: with a 3000 ms duration limit and 85 ms buffer
reads (4096 frames at 48 kHz), the loop exits at 3105 ms, beyond the
claimed bound of `maxDuration + readDur = 3085` ms, because each
iteration also sleeps 50 ms. -/
theorem C6_upper_bound_counterexample :
    (capture_loop_trace 3000 85 0).1 = 3105 ∧ 3000 + 85 < 3105 := by
  constructor
  · simp [capture_loop_trace, sleep_ms]
  · decide

/-- C6 (amended): for a positive duration limit the loop exits with
elapsed time in `[maxDuration, maxDuration + readDur + 50ms sleep)`,
never below the limit; every read starts below the limit and at most
one read ends at or after it. -/
theorem C6_duration_bounds (maxDuration readDur : Nat) (hD : 0 < maxDuration) :
    maxDuration ≤ (capture_loop_trace maxDuration readDur 0).1
    ∧ (capture_loop_trace maxDuration readDur 0).1 <
        maxDuration + readDur + sleep_ms
    ∧ (∀ t ∈ (capture_loop_trace maxDuration readDur 0).2, t < maxDuration)
    ∧ (capture_loop_trace maxDuration readDur 0).2.countP
        (fun t => decide (maxDuration ≤ t + readDur)) ≤ 1 :=
  capture_loop_bounds maxDuration readDur 0 hD

/-- C6 witness: the bounds instantiated for a 1000 ms limit and 85 ms
reads. -/
theorem C6_duration_bounds_witness :
    0 < 1000
    ∧ (1000 ≤ (capture_loop_trace 1000 85 0).1
       ∧ (capture_loop_trace 1000 85 0).1 < 1000 + 85 + sleep_ms
       ∧ (∀ t ∈ (capture_loop_trace 1000 85 0).2, t < 1000)
       ∧ (capture_loop_trace 1000 85 0).2.countP
           (fun t => decide (1000 ≤ t + 85)) ≤ 1) :=
  ⟨by decide, C6_duration_bounds 1000 85 (by decide)⟩

/-- Sum of a constant-valued map over a list. -/
theorem sum_map_of_forall_eq {α : Type} (g : α → Nat) (k : Nat) :
    ∀ l : List α, (∀ f ∈ l, g f = k) → (l.map g).sum = l.length * k := by
  intro l h
  induction l with
  | nil => simp
  | cons a t ih =>
    have ha : g a = k := h a (List.mem_cons_self a t)
    have ht : ∀ f ∈ t, g f = k := fun f hf => h f (List.mem_cons_of_mem a hf)
    simp [ha, ih ht, Nat.succ_mul, Nat.add_comm]

/-- C8: writing captured frames with the WAV encoder concatenates the
chunks in append order and keeps the configured channel count, sample
width and sample rate; if every chunk holds `chunk_size` frames worth of
bytes, reading the file back yields exactly `N × chunk_size` frames. -/
theorem C8_wav_roundtrip (cfg : RecordingConfig) (frames : List (List Nat))
    (hch : 0 < cfg.channels)
    (hlen : ∀ f ∈ frames,
      f.length = cfg.chunk_size * (cfg.channels * get_sample_size cfg.fmt)) :
    (save_as_wav cfg frames).params.nchannels = cfg.channels
    ∧ (save_as_wav cfg frames).params.sampwidth = get_sample_size cfg.fmt
    ∧ (save_as_wav cfg frames).params.framerate = cfg.sample_rate
    ∧ (save_as_wav cfg frames).data = frames.flatten
    ∧ wav_num_frames (save_as_wav cfg frames) = frames.length * cfg.chunk_size := by
  refine ⟨rfl, rfl, rfl, rfl, ?_⟩
  have hsw : 0 < get_sample_size cfg.fmt := by
    cases cfg.fmt with
    | paInt16 => decide
  have hpos : 0 < cfg.channels * get_sample_size cfg.fmt :=
    Nat.mul_pos hch hsw
  unfold wav_num_frames save_as_wav
  simp only [List.length_flatten]
  rw [sum_map_of_forall_eq List.length
      (cfg.chunk_size * (cfg.channels * get_sample_size cfg.fmt)) frames hlen]
  rw [← Nat.mul_assoc]
  exact Nat.mul_div_cancel _ hpos

/-- C8 witness: one chunk of four bytes at two channels, two bytes per
sample, one frame per chunk. -/
theorem C8_wav_roundtrip_witness :
    0 < ({ chunk_size := 1 } : RecordingConfig).channels
    ∧ ((save_as_wav { chunk_size := 1 } [[0, 0, 0, 0]]).params.nchannels =
        ({ chunk_size := 1 } : RecordingConfig).channels
      ∧ (save_as_wav { chunk_size := 1 } [[0, 0, 0, 0]]).params.sampwidth =
          get_sample_size ({ chunk_size := 1 } : RecordingConfig).fmt
      ∧ (save_as_wav { chunk_size := 1 } [[0, 0, 0, 0]]).params.framerate =
          ({ chunk_size := 1 } : RecordingConfig).sample_rate
      ∧ (save_as_wav { chunk_size := 1 } [[0, 0, 0, 0]]).data = [[0, 0, 0, 0]].flatten
      ∧ wav_num_frames (save_as_wav { chunk_size := 1 } [[0, 0, 0, 0]]) =
          ([[0, 0, 0, 0]] : List (List Nat)).length *
            ({ chunk_size := 1 } : RecordingConfig).chunk_size) :=
  ⟨by decide, C8_wav_roundtrip { chunk_size := 1 } [[0, 0, 0, 0]] (by decide)
    (by intro f hf; simp at hf; simp [hf, get_sample_size])⟩

/-- `find?` after `filter` equals a single `find?` with the conjoined
predicate. -/
theorem find?_filter_comm {α : Type} (p q : α → Bool) (l : List α) :
    (l.filter p).find? q = l.find? (fun a => p a && q a) := by
  induction l with
  | nil => rfl
  | cons a t ih =>
    by_cases hp : p a
    · by_cases hq : q a <;> simp [List.filter_cons, hp, hq, ih]
    · simp [List.filter_cons, hp, ih]

/-- The head of a filtered list is the first element satisfying the
predicate. -/
theorem head?_filter_eq_find? {α : Type} (p : α → Bool) (l : List α) :
    (l.filter p).head? = l.find? p := by
  induction l with
  | nil => rfl
  | cons a t ih =>
    by_cases hp : p a <;> simp [List.filter_cons, hp, ih]

/-- A filtered list is empty exactly when no element satisfies the
predicate. -/
theorem filter_isEmpty_iff_not_any {α : Type} (p : α → Bool) (l : List α) :
    (l.filter p).isEmpty = !(l.any p) := by
  induction l with
  | nil => rfl
  | cons a t ih =>
    by_cases hp : p a <;> simp [List.filter_cons, hp, ih]

/-- C3: `get_default_speakers` implements exactly the specified
selection policy (loopback preferred, default-flagged first, else first
in enumeration order; then WASAPI output devices; else absent), returns
`.ok none` rather than raising when nothing is found, and raises
`AudioDeviceError` exactly when the catalog access itself failed. -/
theorem C3_default_speakers_policy (devices : List AudioDevice) (e : DeviceException) :
    get_default_speakers devices = spec_default_speakers devices
    ∧ get_default_speakers_from (.ok devices) = .ok (spec_default_speakers devices)
    ∧ get_default_speakers_from (.error e) =
        .error (.audioDeviceError
          ("Failed to detect default device: " ++ device_exception_message e)) := by
  have hmain : get_default_speakers devices = spec_default_speakers devices := by
    unfold get_default_speakers spec_default_speakers
    simp only [find?_filter_comm, head?_filter_eq_find?, filter_isEmpty_iff_not_any]
    cases hany : devices.any (fun d => d.is_loopback) with
    | true => simp [hany]
    | false =>
      simp only [hany, Bool.not_false, if_true]
      cases hany2 : devices.any
          (fun d => lowerStr d.host_api == "windows wasapi" &&
            decide (d.max_output_channels > 0)) with
      | true => simp [hany2]
      | false =>
        have hall := List.any_eq_false.mp hany2
        have hnone1 : devices.find?
            (fun d => (lowerStr d.host_api == "windows wasapi" &&
              decide (d.max_output_channels > 0)) && d.is_default) = none := by
          rw [List.find?_eq_none]
          intro a ha
          have := hall a ha
          simp_all
        have hnone2 : devices.find?
            (fun d => lowerStr d.host_api == "windows wasapi" &&
              decide (d.max_output_channels > 0)) = none := by
          rw [List.find?_eq_none]
          intro a ha
          exact hall a ha
        simp [hany2, hnone1, hnone2]
  refine ⟨hmain, ?_, rfl⟩
  show Except.ok (get_default_speakers devices) = Except.ok (spec_default_speakers devices)
  rw [hmain]

/-- Transitivity of the descending-score comparison used by
`get_recording_capable_devices`. -/
theorem sort_score_le_trans (a b c : AudioDevice)
    (hab : (decide (sort_score b ≤ sort_score a)) = true)
    (hbc : (decide (sort_score c ≤ sort_score b)) = true) :
    (decide (sort_score c ≤ sort_score a)) = true := by
  simp only [decide_eq_true_eq] at *
  omega

/-- Totality of the descending-score comparison. -/
theorem sort_score_le_total (a b : AudioDevice) :
    ((decide (sort_score b ≤ sort_score a)) ||
      (decide (sort_score a ≤ sort_score b))) = true := by
  rcases Nat.le_total (sort_score b) (sort_score a) with h | h <;> simp [h]

/-- C5: `get_recording_capable_devices` returns a permutation of the
input-capable devices, in non-increasing preference-score order, and
devices of equal score keep their relative enumeration order (the
sublist of any fixed score is unchanged). -/
theorem C5_recording_capable_order (devices : List AudioDevice) (s : Nat) :
    List.Perm (get_recording_capable_devices devices)
      (devices.filter (fun d => d.max_input_channels > 0))
    ∧ (get_recording_capable_devices devices).Pairwise
        (fun a b => sort_score b ≤ sort_score a)
    ∧ (get_recording_capable_devices devices).filter (fun d => sort_score d == s) =
        (devices.filter (fun d => d.max_input_channels > 0)).filter
          (fun d => sort_score d == s) := by
  unfold get_recording_capable_devices
  refine ⟨List.mergeSort_perm _ _, ?_, ?_⟩
  · have h := List.sorted_mergeSort
      sort_score_le_trans sort_score_le_total
      (devices.filter (fun d => d.max_input_channels > 0))
    exact h.imp (fun hab => of_decide_eq_true hab)
  · set cand := devices.filter (fun d => d.max_input_channels > 0) with hc
    set res := cand.mergeSort (fun a b => decide (sort_score b ≤ sort_score a)) with hr
    set eqs := cand.filter (fun d => sort_score d == s) with he
    have hpair : eqs.Pairwise (fun a b => (decide (sort_score b ≤ sort_score a)) = true) := by
      apply List.pairwise_of_forall_mem_list
      intro a ha b hb
      have ha2 := (List.mem_filter.mp ha).2
      have hb2 := (List.mem_filter.mp hb).2
      simp only [beq_iff_eq] at ha2 hb2
      simp [ha2, hb2]
    have hsub : List.Sublist eqs cand := List.filter_sublist cand
    have hsubres : List.Sublist eqs res :=
      List.sublist_mergeSort sort_score_le_trans sort_score_le_total hpair hsub
    have hsubfil : List.Sublist eqs (res.filter (fun d => sort_score d == s)) := by
      have := hsubres.filter (fun d => sort_score d == s)
      rwa [List.filter_filter, show (fun d => (sort_score d == s) &&
        (sort_score d == s)) = (fun d => sort_score d == s) from by
          funext d; cases h : (sort_score d == s) <;> simp [h]] at this
    have hperm : List.Perm (res.filter (fun d => sort_score d == s)) eqs :=
      (List.mergeSort_perm cand _).filter (fun d => sort_score d == s)
    exact (hsubfil.eq_of_length hperm.length_eq.symm).symm

/-- A successfully built device record carries the endpoint index it was
built from. -/
theorem build_device_index (p : AudioSubsystem) (i : Nat) (d : AudioDevice)
    (h : (build_device p i).toOption = some d) : d.index = i := by
  unfold build_device at h
  cases hinfo : p.deviceInfo i with
  | error u => simp [hinfo, Except.toOption] at h
  | ok info =>
    cases hapi : p.hostApiName info.hostApi with
    | error u => simp [hinfo, hapi, Except.toOption] at h
    | ok api =>
      cases hlb : is_loopback_device info with
      | error m =>
        simp [hinfo, hapi, hlb, Except.toOption] at h
      | ok lb =>
        simp [hinfo, hapi, hlb, Except.toOption] at h
        rw [← h]

/-- The indices surviving enumeration are exactly those whose endpoint
query and classification succeed, in enumeration order. -/
theorem enumerated_indices (p : AudioSubsystem) :
    ∀ xs : List Nat,
      (xs.filterMap (fun i => (build_device p i).toOption)).map (fun d => d.index) =
        xs.filter (fun i => ((build_device p i).toOption).isSome) := by
  intro xs
  induction xs with
  | nil => rfl
  | cons x t ih =>
    cases h : (build_device p x).toOption with
    | none => simp [List.filterMap_cons, h, ih, List.filter_cons]
    | some d =>
      have hx : d.index = x := build_device_index p x d h
      simp [List.filterMap_cons, h, ih, List.filter_cons, hx]

/-- C4 counterexample: a cache populated with an empty device list (as
happens after enumerating a host with zero usable endpoints) is returned
unchanged when `refresh` is false, although re-enumeration would now
find a device — refuting "when the cache is empty, it re-enumerates". -/
theorem C4_empty_cache_counterexample :
    list_all_devices emptySubsystem none false = .ok ([], some [])
    ∧ list_all_devices usbSubsystem (some []) false = .ok ([], some [])
    ∧ list_all_devices usbSubsystem none false = .ok ([usbDevice], some [usbDevice]) :=
  ⟨rfl, rfl, rfl⟩

/-- C4 (amended): `list_all_devices` returns the cached sequence
unchanged whenever `refresh` is false and the cache has been populated
(even with an empty list); otherwise it re-enumerates: total enumeration
failure raises `AudioDeviceError`, and an individual endpoint failure
only causes that endpoint to be skipped while the call still succeeds
with the surviving endpoints in enumeration order. -/
theorem C4_cache_and_enumeration (p : AudioSubsystem) (c : List AudioDevice)
    (r : Bool) (n : Nat) :
    list_all_devices p (some c) false = .ok (c, some c)
    ∧ (p.deviceCount = .error () →
        list_all_devices p none r = .error (.audioDeviceError "Failed to list devices")
        ∧ list_all_devices p (some c) true =
            .error (.audioDeviceError "Failed to list devices"))
    ∧ (p.deviceCount = .ok n →
        list_all_devices p none r =
          .ok ((List.range n).filterMap (fun i => (build_device p i).toOption),
               some ((List.range n).filterMap (fun i => (build_device p i).toOption)))
        ∧ ((List.range n).filterMap (fun i => (build_device p i).toOption)).map
            (fun d => d.index) =
          (List.range n).filter (fun i => ((build_device p i).toOption).isSome)) := by
  refine ⟨rfl, ?_, ?_⟩
  · intro h
    constructor <;> · cases r <;> simp [list_all_devices, enumerate_devices, h]
  · intro h
    refine ⟨?_, enumerated_indices p (List.range n)⟩
    cases r <;> simp [list_all_devices, enumerate_devices, h]

/-- C4 witness: total failure raises; a one-endpoint subsystem
enumerates to its device list. -/
theorem C4_cache_and_enumeration_witness :
    list_all_devices downSubsystem none false =
      .error (.audioDeviceError "Failed to list devices")
    ∧ list_all_devices usbSubsystem none false =
        .ok ((List.range 1).filterMap (fun i => (build_device usbSubsystem i).toOption),
             some ((List.range 1).filterMap
               (fun i => (build_device usbSubsystem i).toOption))) := by
  refine ⟨((C4_cache_and_enumeration downSubsystem [] false 0).2.1 rfl).1, ?_⟩
  exact ((C4_cache_and_enumeration usbSubsystem [] false 1).2.2 rfl).1
